import Mathlib

/-!
Verification of the Cosmetic Star CRM backend (src/backend/server.js together
with src/backend/schema.sql and the treatment-plan page of the React frontend).

The store is modelled as lists of rows, one list per table of schema.sql; each
REST handler of server.js becomes a Lean function from the store (and the
request fields) to the new store and the HTTP-level outcome.  Supabase query
builder calls are modelled by their PostgreSQL semantics: `insert` appends a
row, `upsert ... onConflict` updates the conflicting row in place or appends,
`delete().eq(col, v)` filters rows out, `maybeSingle` is `List.find?`, the
`UNIQUE` constraint on `patients.email` makes a second insert fail with
PostgreSQL error 23505, and `ON DELETE CASCADE` removes every dependent row
when a patient is deleted.  Money columns (DECIMAL(10,2)) are modelled as
exact integers.
-/

namespace CosmeticStarCRM

/-- A row of the `patients` table (schema.sql): identity plus contact fields. -/
structure Patient where
  id : Nat
  first_name : String
  last_name : String
  phone : String
  email : String
deriving DecidableEq

/-- A row of the `medical_intakes` table: the questionnaire JSON blob, opaque here. -/
structure MedicalIntake where
  id : Nat
  patient_id : Nat
  data : String
deriving DecidableEq

/-- A row of the `contracts` table; UNIQUE(patient_id) in schema.sql. -/
structure Contract where
  id : Nat
  patient_id : Nat
  signature_url : String
deriving DecidableEq

/-- A row of the `bookings` table. -/
structure Booking where
  id : Nat
  patient_id : Nat
  service_type : String
  date : String
  time_slot : String
  status : String
deriving DecidableEq

/-- A row of the `treatment_plans` table; UNIQUE(patient_id) in schema.sql. -/
structure TreatmentPlan where
  id : Nat
  patient_id : Nat
  service_id : String
  service_name : String
  base_cost : Int
  discount : Int
  total_to_pay : Int
  status : String
deriving DecidableEq

/-- A row of the `transactions` table. -/
structure Transaction where
  id : Nat
  patient_id : Nat
  amount : Int
  type : String
  proof_name : String
deriving DecidableEq

/-- The database state: one list of rows per table, plus a fresh-id counter
standing in for `uuid_generate_v4()`. -/
structure Store where
  patients : List Patient
  medical_intakes : List MedicalIntake
  contracts : List Contract
  bookings : List Booking
  treatment_plans : List TreatmentPlan
  transactions : List Transaction
  nextId : Nat
deriving DecidableEq

/-- The empty database. -/
def emptyStore : Store := ⟨[], [], [], [], [], [], 0⟩

/-- Outcome of POST /api/patients (server.js lines 99-116): 201 with the row, or
409 with a coded error when the UNIQUE(email) constraint fires (error 23505). -/
inductive CreatePatientResult where
  | created (p : Patient)
  | conflict (status : Nat) (code : String)
deriving DecidableEq

/-- POST /api/patients: insert a patient row; a duplicate email violates the
UNIQUE constraint of schema.sql and is mapped by the handler to
409 / DUPLICATE_EMAIL; on that error nothing is inserted. -/
def createPatient (s : Store) (fn ln ph em : String) : Store × CreatePatientResult :=
  if s.patients.any (fun p => p.email == em) then
    (s, .conflict 409 "DUPLICATE_EMAIL")
  else
    let p : Patient := { id := s.nextId, first_name := fn, last_name := ln, phone := ph, email := em }
    ({ s with patients := s.patients ++ [p], nextId := s.nextId + 1 }, .created p)

/-- PUT /api/patients/:id (server.js lines 119-130): update the contact fields
of the row with the given id. -/
def updatePatient (s : Store) (pid : Nat) (fn ln ph em : String) : Store :=
  { s with patients := s.patients.map (fun p =>
      if p.id == pid then { p with first_name := fn, last_name := ln, phone := ph, email := em } else p) }

/-- DELETE /api/patients/:id (server.js lines 133-142): delete the patient row;
per schema.sql every dependent table references patients(id) ON DELETE CASCADE,
so all dependent rows go with it. -/
def deletePatient (s : Store) (pid : Nat) : Store :=
  { s with
    patients := s.patients.filter (fun p => p.id != pid),
    medical_intakes := s.medical_intakes.filter (fun m => m.patient_id != pid),
    contracts := s.contracts.filter (fun c => c.patient_id != pid),
    bookings := s.bookings.filter (fun b => b.patient_id != pid),
    treatment_plans := s.treatment_plans.filter (fun t => t.patient_id != pid),
    transactions := s.transactions.filter (fun t => t.patient_id != pid) }

/-- POST /api/assessment (server.js lines 145-154): upsert the questionnaire
blob, onConflict patient_id. -/
def saveAssessment (s : Store) (pid : Nat) (d : String) : Store :=
  if s.medical_intakes.any (fun m => m.patient_id == pid) then
    { s with medical_intakes := s.medical_intakes.map (fun m =>
        if m.patient_id == pid then { m with data := d } else m) }
  else
    { s with medical_intakes := s.medical_intakes ++ [{ id := s.nextId, patient_id := pid, data := d }],
             nextId := s.nextId + 1 }

/-- POST /api/contract (server.js lines 170-193): after the signature image is
stored, upsert one contracts row keyed on patient_id. -/
def uploadContract (s : Store) (pid : Nat) (url : String) : Store :=
  if s.contracts.any (fun c => c.patient_id == pid) then
    { s with contracts := s.contracts.map (fun c =>
        if c.patient_id == pid then { c with signature_url := url } else c) }
  else
    { s with contracts := s.contracts ++ [{ id := s.nextId, patient_id := pid, signature_url := url }],
             nextId := s.nextId + 1 }

/-- GET /api/contract/:patientId, the `maybeSingle` lookup (server.js 196-206). -/
def getContract (s : Store) (pid : Nat) : Option Contract :=
  s.contracts.find? (fun c => c.patient_id == pid)

/-- The `signed` field of the GET /api/contract/:patientId response: `!!data`. -/
def contractSigned (s : Store) (pid : Nat) : Bool :=
  (getContract s pid).isSome

/-- Outcome of POST /api/bookings: 201 with the row, or 403 with the gate error. -/
inductive BookingResult where
  | created (b : Booking)
  | forbidden (status : Nat) (error : String)
deriving DecidableEq

/-- POST /api/bookings (server.js lines 221-239): look the contract up with
maybeSingle; without one answer 403 and insert nothing, otherwise insert the
booking row (status defaults to 'Confirmed' per schema.sql). -/
def createBooking (s : Store) (pid : Nat) (stype date slot : String) : Store × BookingResult :=
  match getContract s pid with
  | none => (s, .forbidden 403 "Patient must sign a contract before booking.")
  | some _ =>
    let b : Booking := { id := s.nextId, patient_id := pid, service_type := stype,
                         date := date, time_slot := slot, status := "Confirmed" }
    ({ s with bookings := s.bookings ++ [b], nextId := s.nextId + 1 }, .created b)

/-- The booking row that a successful POST /api/bookings inserts. -/
def newBookingRow (s : Store) (pid : Nat) (stype date slot : String) : Booking :=
  { id := s.nextId, patient_id := pid, service_type := stype,
    date := date, time_slot := slot, status := "Confirmed" }

/-- GET /api/slots (server.js lines 209-218): the time slots booked on a date. -/
def getSlots (s : Store) (date : String) : List String :=
  (s.bookings.filter (fun b => b.date == date)).map (fun b => b.time_slot)

/-- POST /api/treatment-plan (server.js lines 242-260): upsert the plan row,
onConflict patient_id, status forced to 'Active'; the handler stores the
total_to_pay field exactly as sent by the client. -/
def saveTreatmentPlan (s : Store) (pid : Nat) (sid sname : String) (cost disc total : Int) : Store :=
  if s.treatment_plans.any (fun t => t.patient_id == pid) then
    { s with treatment_plans := s.treatment_plans.map (fun t =>
        if t.patient_id == pid then
          { t with service_id := sid, service_name := sname, base_cost := cost,
                   discount := disc, total_to_pay := total, status := "Active" }
        else t) }
  else
    let row : TreatmentPlan :=
      { id := s.nextId, patient_id := pid, service_id := sid, service_name := sname,
        base_cost := cost, discount := disc, total_to_pay := total, status := "Active" }
    { s with treatment_plans := s.treatment_plans ++ [row], nextId := s.nextId + 1 }

/-- POST /api/transactions (server.js lines 307-339): insert a transaction row
of type 'Installment' for the given patient and amount. -/
def recordTransaction (s : Store) (pid : Nat) (amount : Int) (proofName : String) : Store :=
  let row : Transaction :=
    { id := s.nextId, patient_id := pid, amount := amount, type := "Installment",
      proof_name := proofName }
  { s with transactions := s.transactions ++ [row], nextId := s.nextId + 1 }

/-- Sum of the amounts of all transactions of a patient, the reduce of
server.js line 293. -/
def paidSum (s : Store) (pid : Nat) : Int :=
  ((s.transactions.filter (fun t => t.patient_id == pid)).map (fun t => t.amount)).sum

/-- The body of the GET /api/financials/:patientId response (server.js 295-303). -/
structure Financials where
  patient_id : Nat
  service_name : String
  total_amount : Int
  amount_paid : Int
  status : String
deriving DecidableEq

/-- GET /api/financials/:patientId (server.js lines 276-304): 404 (`none`) when
the patient has no treatment plan; otherwise the plan total, the computed sum
of the patient's transactions, and the status label derived by comparing them. -/
def getFinancials (s : Store) (pid : Nat) : Option Financials :=
  match s.treatment_plans.find? (fun t => t.patient_id == pid) with
  | none => none
  | some plan =>
    let amountPaid := paidSum s pid
    some { patient_id := pid, service_name := plan.service_name,
           total_amount := plan.total_to_pay, amount_paid := amountPaid,
           status := if plan.total_to_pay ≤ amountPaid then "Payment Done" else "Payment Pending" }

/-- Occurrence of `needle` as a contiguous sublist of `hay`, executable form. -/
def isSubList (needle : List Char) : List Char → Bool
  | [] => needle.isEmpty
  | c :: t => needle.isPrefixOf (c :: t) || isSubList needle t

/-- Characters of a string, lower-cased: the case folding done by `ilike`. -/
def lowerChars (s : String) : List Char :=
  s.toList.map Char.toLower

/-- Model of a PostgREST `col.ilike.%x%` filter: case-insensitive substring. -/
def ilikeContains (hay needle : String) : Bool :=
  isSubList (lowerChars needle) (lowerChars hay)

/-- The or-filter built by GET /api/patients (server.js line 73): it matches on
first_name, last_name and email. -/
def patientMatchesQuery (q : String) (p : Patient) : Bool :=
  ilikeContains p.first_name q || ilikeContains p.last_name q || ilikeContains p.email q

/-- GET /api/patients (server.js lines 68-96): `if (search)` is false for an
absent or empty string, so an empty search returns every patient; otherwise the
or-filter is applied. -/
def searchPatients (s : Store) (q : String) : List Patient :=
  if q == "" then s.patients else s.patients.filter (patientMatchesQuery q)

/-- Stated from the spec for comparison: a substring filter "across
name/email/phone fields", i.e. one that also matches on the phone column. -/
def patientMatchesSpec (q : String) (p : Patient) : Bool :=
  ilikeContains p.first_name q || ilikeContains p.last_name q ||
    ilikeContains p.email q || ilikeContains p.phone q

/-- One state-changing API request: the alphabet of the transition system. -/
inductive Op where
  | createPatient (fn ln ph em : String)
  | updatePatient (pid : Nat) (fn ln ph em : String)
  | deletePatient (pid : Nat)
  | saveAssessment (pid : Nat) (d : String)
  | uploadContract (pid : Nat) (url : String)
  | createBooking (pid : Nat) (stype date slot : String)
  | saveTreatmentPlan (pid : Nat) (sid sname : String) (cost disc total : Int)
  | recordTransaction (pid : Nat) (amount : Int) (proofName : String)
deriving DecidableEq

/-- Effect of one request on the store (the HTTP response is dropped here). -/
def applyOp (s : Store) : Op → Store
  | .createPatient fn ln ph em => (createPatient s fn ln ph em).1
  | .updatePatient pid fn ln ph em => updatePatient s pid fn ln ph em
  | .deletePatient pid => deletePatient s pid
  | .saveAssessment pid d => saveAssessment s pid d
  | .uploadContract pid url => uploadContract s pid url
  | .createBooking pid stype date slot => (createBooking s pid stype date slot).1
  | .saveTreatmentPlan pid sid sname cost disc total => saveTreatmentPlan s pid sid sname cost disc total
  | .recordTransaction pid amount pf => recordTransaction s pid amount pf

/-- Database states reachable from the empty store by API requests. -/
inductive Reachable : Store → Prop
  | empty : Reachable emptyStore
  | step (s : Store) (op : Op) : Reachable s → Reachable (applyOp s op)

/-- Frontend computation (treatment-plan page, src/unnamed/part_001 line 107):
`const totalToPay = Math.max(0, cost - discount)`. -/
def totalToPay (cost discount : Int) : Int := max 0 (cost - discount)

/-- The treatment-plan page (handleGenerateContract in part_001) posts the
computed totalToPay to POST /api/treatment-plan. -/
def createPlanFromPage (s : Store) (pid : Nat) (sid sname : String) (cost discount : Int) : Store :=
  saveTreatmentPlan s pid sid sname cost discount (totalToPay cost discount)

/-- Recording a batch of payments one after the other, no concurrency. -/
def recordMany (s : Store) (pid : Nat) (amounts : List Int) : Store :=
  amounts.foldl (fun st a => recordTransaction st pid a ("proof.png")) s

/-! Concrete stores used by the witnesses below, all built by API requests. -/

/-- Store holding one freshly registered patient (id 0) and nothing else. -/
def demoOnePatient : Store :=
  applyOp emptyStore (.createPatient ("Ada") "Quill" "0700001111" "ada@clinic.example")

theorem demoOnePatient_reachable : Reachable demoOnePatient :=
  .step _ _ .empty

/-- Store where patient 0 has also signed the contract. -/
def demoSigned : Store :=
  applyOp demoOnePatient (.uploadContract 0 "https://cdn.example/sig0.png")

theorem demoSigned_reachable : Reachable demoSigned :=
  .step _ _ demoOnePatient_reachable

/-- Store where patient 0 has signed and holds one booking. -/
def demoBooked : Store :=
  applyOp demoSigned (.createBooking 0 "Rhinoplasty" "2026-01-05" "09:00")

theorem demoBooked_reachable : Reachable demoBooked :=
  .step _ _ demoSigned_reachable

/-- Store where patient 0 additionally has a treatment plan. -/
def demoPlanned : Store :=
  applyOp demoBooked (.saveTreatmentPlan 0 "rhinoplasty" "Rhinoplasty" 3000 500 2500)

theorem demoPlanned_reachable : Reachable demoPlanned :=
  .step _ _ demoBooked_reachable

/-- Store where patient 0 additionally has one recorded payment. -/
def demoBilled : Store :=
  applyOp demoPlanned (.recordTransaction 0 1000 "receipt1.png")

theorem demoBilled_reachable : Reachable demoBilled :=
  .step _ _ demoPlanned_reachable

/-- The booking row that the demoBooked scenario inserts. -/
def demoBookingRow : Booking :=
  { id := 2, patient_id := 0, service_type := "Rhinoplasty",
    date := "2026-01-05", time_slot := "09:00", status := "Confirmed" }

/-- The treatment-plan row that the demoPlanned scenario inserts. -/
def demoPlanRow : TreatmentPlan :=
  { id := 3, patient_id := 0, service_id := "rhinoplasty", service_name := "Rhinoplasty",
    base_cost := 3000, discount := 500, total_to_pay := 2500, status := "Active" }

/-! Basic facts about the model. -/

theorem contractSigned_iff (s : Store) (pid : Nat) :
    contractSigned s pid = true ↔ ∃ c ∈ s.contracts, c.patient_id = pid := by
  simp [contractSigned, getContract, List.find?_isSome]

/-- C1: a booking request (POST /api/bookings) for a patient who has no
contract row is answered with HTTP 403 and the explicit gate error, and the
store is returned unchanged: no booking row is inserted. -/
theorem booking_without_contract_rejected (s : Store) (pid : Nat) (stype date slot : String)
    (h : contractSigned s pid = false) :
    (createBooking s pid stype date slot).2 =
      .forbidden 403 "Patient must sign a contract before booking." ∧
    (createBooking s pid stype date slot).1 = s := by
  have hn : getContract s pid = none := by
    cases hg : getContract s pid with
    | none => rfl
    | some c => rw [contractSigned, hg] at h; simp at h
  unfold createBooking
  rw [hn]
  exact ⟨rfl, rfl⟩

/-- Witness for C1 at a concrete store holding one patient and no contract. -/
theorem booking_without_contract_rejected_witness :
    (createBooking demoOnePatient 0 "Rhinoplasty" "2026-01-05" "09:00").2 =
      .forbidden 403 "Patient must sign a contract before booking." ∧
    (createBooking demoOnePatient 0 "Rhinoplasty" "2026-01-05" "09:00").1 = demoOnePatient :=
  booking_without_contract_rejected demoOnePatient 0 "Rhinoplasty" "2026-01-05" "09:00" (by decide)

/-- C6: once a patient-creation request with email em has committed, a second
creation request with the same email is answered 409 with the coded error
DUPLICATE_EMAIL (the UNIQUE(email) violation, error 23505, mapped by the
handler), and the store is unchanged: no second patient row appears. -/
theorem duplicate_email_rejected (s s1 : Store) (p : Patient)
    (fn1 ln1 ph1 fn2 ln2 ph2 em : String)
    (h1 : createPatient s fn1 ln1 ph1 em = (s1, .created p)) :
    createPatient s1 fn2 ln2 ph2 em = (s1, .conflict 409 "DUPLICATE_EMAIL") := by
  unfold createPatient at h1 ⊢
  split at h1
  · exact absurd (congrArg Prod.snd h1) (by simp)
  · have hs1 : s1.patients = s.patients ++
        [{ id := s.nextId, first_name := fn1, last_name := ln1, phone := ph1, email := em }] := by
      have := congrArg Prod.fst h1
      simp at this
      rw [← this]
    rw [if_pos (by simp [hs1])]

/-- Witness for C6 at the concrete one-patient store. -/
theorem duplicate_email_rejected_witness :
    createPatient demoOnePatient ("Bea") "Stone" "0800002222" "ada@clinic.example" =
      (demoOnePatient, .conflict 409 "DUPLICATE_EMAIL") :=
  duplicate_email_rejected emptyStore demoOnePatient
    { id := 0, first_name := "Ada", last_name := "Quill", phone := "0700001111",
      email := "ada@clinic.example" }
    "Ada" "Quill" "0700001111" "Bea" "Stone" "0800002222" "ada@clinic.example" (by decide)

/-- C10: booking creation never looks at existing bookings, so a booking
request for an already-taken date and time slot from any patient with a
contract also succeeds, and two booking rows with the same date and time_slot
then coexist. -/
theorem double_booking_allowed (s : Store) (pid : Nat) (stype d slot : String)
    (hc : contractSigned s pid = true)
    (hb : 1 ≤ s.bookings.countP (fun b => b.date == d && b.time_slot == slot)) :
    (createBooking s pid stype d slot).2 =
      .created { id := s.nextId, patient_id := pid, service_type := stype,
                 date := d, time_slot := slot, status := "Confirmed" } ∧
    2 ≤ (createBooking s pid stype d slot).1.bookings.countP
        (fun b => b.date == d && b.time_slot == slot) := by
  obtain ⟨c, hg⟩ : ∃ c, getContract s pid = some c := by
    rw [contractSigned] at hc
    exact Option.isSome_iff_exists.mp hc
  unfold createBooking
  rw [hg]
  refine ⟨rfl, ?_⟩
  simp only [List.countP_append]
  have h1 : List.countP (fun b => b.date == d && b.time_slot == slot)
      [({ id := s.nextId, patient_id := pid, service_type := stype,
          date := d, time_slot := slot, status := "Confirmed" } : Booking)] = 1 := by
    simp
  omega

/-- Witness for C10: the demo store already holds a booking at the same slot. -/
theorem double_booking_allowed_witness :
    (createBooking demoBooked 0 "Rhinoplasty" "2026-01-05" "09:00").2 =
      .created { id := demoBooked.nextId, patient_id := 0, service_type := "Rhinoplasty",
                 date := "2026-01-05", time_slot := "09:00", status := "Confirmed" } ∧
    2 ≤ (createBooking demoBooked 0 "Rhinoplasty" "2026-01-05" "09:00").1.bookings.countP
        (fun b => b.date == "2026-01-05" && b.time_slot == "09:00") :=
  double_booking_allowed demoBooked 0 "Rhinoplasty" "2026-01-05" "09:00" (by decide) (by decide)

/-- Finding in a mapped list when the map does not change the predicate. -/
theorem find?_map_of_pred_eq {α : Type} (p : α → Bool) (f : α → α)
    (hf : ∀ x, p (f x) = p x) : ∀ l : List α, (l.map f).find? p = (l.find? p).map f
  | [] => rfl
  | x :: t => by
    by_cases hx : p x = true
    · rw [List.map_cons, List.find?_cons_of_pos (h := by rw [hf]; exact hx),
        List.find?_cons_of_pos (h := hx), Option.map_some']
    · rw [List.map_cons, List.find?_cons_of_neg (h := by rw [hf]; exact hx),
        List.find?_cons_of_neg (h := hx)]
      exact find?_map_of_pred_eq p f hf t

/-- After the upsert of POST /api/treatment-plan, the plan row looked up for the
patient carries exactly the total_to_pay value sent in the request. -/
theorem find?_saveTreatmentPlan (s : Store) (pid : Nat) (sid sname : String)
    (cost disc total : Int) :
    ((saveTreatmentPlan s pid sid sname cost disc total).treatment_plans.find?
        (fun t => t.patient_id == pid)).map TreatmentPlan.total_to_pay = some total := by
  unfold saveTreatmentPlan
  split
  next hdup =>
    dsimp only
    rw [find?_map_of_pred_eq _ _
      (fun t => by by_cases ht : (t.patient_id == pid) = true <;> simp [ht])]
    obtain ⟨t1, ht1⟩ := Option.isSome_iff_exists.mp
      (List.find?_isSome.mpr (List.any_eq_true.mp hdup))
    rw [ht1]
    have hp1 := List.find?_some ht1
    simp only [] at hp1
    rw [beq_iff_eq] at hp1
    simp [hp1]
  next hdup =>
    dsimp only
    rw [List.find?_append,
      List.find?_eq_none.mpr (fun x hx hpx => hdup (List.any_eq_true.mpr ⟨x, hx, hpx⟩))]
    simp

/-- C5: the treatment-plan page computes totalToPay as max(0, cost - discount)
and stores exactly that value, so a discount exceeding the base cost stores a
total of zero, and the stored total is never negative. -/
theorem plan_total_floored_at_zero (s : Store) (pid : Nat) (sid sname : String)
    (cost disc c d : Int) (h : cost < disc) :
    ((createPlanFromPage s pid sid sname cost disc).treatment_plans.find?
        (fun t => t.patient_id == pid)).map TreatmentPlan.total_to_pay = some 0 ∧
    ((createPlanFromPage s pid sid sname c d).treatment_plans.find?
        (fun t => t.patient_id == pid)).map TreatmentPlan.total_to_pay
      = some (totalToPay c d) ∧
    0 ≤ totalToPay c d := by
  refine ⟨?_, ?_, le_max_left 0 (c - d)⟩
  · unfold createPlanFromPage
    rw [find?_saveTreatmentPlan]
    have h0 : totalToPay cost disc = 0 := max_eq_left (by omega)
    rw [h0]
  · exact find?_saveTreatmentPlan s pid sid sname c d (totalToPay c d)

/-- Witness for C5: base cost 1000, discount 1500 stores a zero total. -/
theorem plan_total_floored_at_zero_witness :
    ((createPlanFromPage demoSigned 0 "botox" "Anti-Wrinkle Treatment" 1000 1500).treatment_plans.find?
        (fun t => t.patient_id == 0)).map TreatmentPlan.total_to_pay = some 0 ∧
    ((createPlanFromPage demoSigned 0 "botox" "Anti-Wrinkle Treatment" 300 40).treatment_plans.find?
        (fun t => t.patient_id == 0)).map TreatmentPlan.total_to_pay = some (totalToPay 300 40) ∧
    0 ≤ totalToPay 300 40 :=
  plan_total_floored_at_zero demoSigned 0 "botox" "Anti-Wrinkle Treatment" 1000 1500 300 40
    (by decide)

theorem recordMany_nil (s : Store) (pid : Nat) : recordMany s pid [] = s := rfl

theorem recordMany_cons (s : Store) (pid : Nat) (a : Int) (t : List Int) :
    recordMany s pid (a :: t) = recordMany (recordTransaction s pid a ("proof.png")) pid t := rfl

/-- Recording a payment leaves the treatment_plans table untouched. -/
theorem recordMany_treatment_plans (pid : Nat) :
    ∀ (amounts : List Int) (s : Store),
      (recordMany s pid amounts).treatment_plans = s.treatment_plans
  | [], _ => rfl
  | a :: t, s => recordMany_treatment_plans pid t (recordTransaction s pid a ("proof.png"))

/-- One recorded payment adds its amount to the patient's transaction sum. -/
theorem paidSum_recordTransaction (s : Store) (pid : Nat) (a : Int) (pf : String) :
    paidSum (recordTransaction s pid a pf) pid = paidSum s pid + a := by
  unfold paidSum recordTransaction
  simp

/-- A batch of recorded payments adds its total to the transaction sum. -/
theorem paidSum_recordMany (pid : Nat) :
    ∀ (amounts : List Int) (s : Store),
      paidSum (recordMany s pid amounts) pid = paidSum s pid + amounts.sum
  | [], s => by simp [recordMany_nil]
  | a :: t, s => by
    rw [recordMany_cons, paidSum_recordMany pid t, paidSum_recordTransaction, List.sum_cons]
    ring

/-- C3: for a patient with a treatment plan, after any fixed sequence of
recorded payments, the amount_paid field of GET /api/financials/:patientId is
the sum of the amounts of all transaction rows of that patient, and that sum
is the prior sum plus the total of the recorded sequence. -/
theorem financials_amount_paid_is_sum (s : Store) (pid : Nat) (plan : TreatmentPlan)
    (amounts : List Int)
    (hplan : s.treatment_plans.find? (fun t => t.patient_id == pid) = some plan) :
    (getFinancials (recordMany s pid amounts) pid).map Financials.amount_paid =
      some (paidSum (recordMany s pid amounts) pid) ∧
    paidSum (recordMany s pid amounts) pid = paidSum s pid + amounts.sum := by
  refine ⟨?_, paidSum_recordMany pid amounts s⟩
  unfold getFinancials
  rw [recordMany_treatment_plans pid amounts s, hplan]
  rfl

/-- Witness for C3 at the concrete planned store and payments 1000 and 1500. -/
theorem financials_amount_paid_is_sum_witness :
    (getFinancials (recordMany demoPlanned 0 [1000, 1500]) 0).map Financials.amount_paid =
      some (paidSum (recordMany demoPlanned 0 [1000, 1500]) 0) ∧
    paidSum (recordMany demoPlanned 0 [1000, 1500]) 0 =
      paidSum demoPlanned 0 + ([1000, 1500] : List Int).sum :=
  financials_amount_paid_is_sum demoPlanned 0 demoPlanRow [1000, 1500] (by decide)

/-- C4: the status field of GET /api/financials/:patientId is not read from any
table: it is 'Payment Done' exactly when the patient's transaction sum reaches
the plan total, and 'Payment Pending' exactly otherwise, and the amount_paid
field is that transaction sum. -/
theorem payment_status_derived (s : Store) (pid : Nat) (f : Financials)
    (h : getFinancials s pid = some f) :
    f.amount_paid = paidSum s pid ∧
    (f.status = "Payment Done" ↔ f.total_amount ≤ paidSum s pid) ∧
    (f.status = "Payment Pending" ↔ ¬ f.total_amount ≤ paidSum s pid) := by
  unfold getFinancials at h
  cases hfind : s.treatment_plans.find? (fun t => t.patient_id == pid) with
  | none => rw [hfind] at h; exact absurd h (by simp)
  | some plan =>
    rw [hfind] at h
    injection h with h
    subst h
    refine ⟨rfl, ?_, ?_⟩
    · dsimp only
      split
      next hcond => exact iff_of_true rfl hcond
      next hcond => exact iff_of_false (by decide) hcond
    · dsimp only
      split
      next hcond => exact iff_of_false (by decide) (not_not_intro hcond)
      next hcond => exact iff_of_true rfl hcond

/-- Witness for C4 at the concrete billed store: 1000 paid of 2500 is Pending. -/
theorem payment_status_derived_witness :
    ({ patient_id := 0, service_name := "Rhinoplasty", total_amount := 2500,
       amount_paid := 1000, status := "Payment Pending" } : Financials).amount_paid =
      paidSum demoBilled 0 ∧
    (({ patient_id := 0, service_name := "Rhinoplasty", total_amount := 2500,
        amount_paid := 1000, status := "Payment Pending" } : Financials).status =
        "Payment Done" ↔
      ({ patient_id := 0, service_name := "Rhinoplasty", total_amount := 2500,
         amount_paid := 1000, status := "Payment Pending" } : Financials).total_amount ≤
        paidSum demoBilled 0) ∧
    (({ patient_id := 0, service_name := "Rhinoplasty", total_amount := 2500,
        amount_paid := 1000, status := "Payment Pending" } : Financials).status =
        "Payment Pending" ↔
      ¬ ({ patient_id := 0, service_name := "Rhinoplasty", total_amount := 2500,
           amount_paid := 1000, status := "Payment Pending" } : Financials).total_amount ≤
        paidSum demoBilled 0) :=
  payment_status_derived demoBilled 0
    { patient_id := 0, service_name := "Rhinoplasty", total_amount := 2500,
      amount_paid := 1000, status := "Payment Pending" } (by decide)

/-- C7: deleting a patient removes the patient row and, through the
ON DELETE CASCADE references of schema.sql, exactly the dependent
medical_intakes, contracts, bookings, treatment_plans and transactions rows of
that patient; every row of any other patient stays. -/
theorem delete_patient_cascades (s : Store) (pid : Nat) :
    (∀ p : Patient, p ∈ (deletePatient s pid).patients ↔ p ∈ s.patients ∧ p.id ≠ pid) ∧
    (∀ m : MedicalIntake,
      m ∈ (deletePatient s pid).medical_intakes ↔
        m ∈ s.medical_intakes ∧ m.patient_id ≠ pid) ∧
    (∀ c : Contract,
      c ∈ (deletePatient s pid).contracts ↔ c ∈ s.contracts ∧ c.patient_id ≠ pid) ∧
    (∀ b : Booking,
      b ∈ (deletePatient s pid).bookings ↔ b ∈ s.bookings ∧ b.patient_id ≠ pid) ∧
    (∀ t : TreatmentPlan,
      t ∈ (deletePatient s pid).treatment_plans ↔
        t ∈ s.treatment_plans ∧ t.patient_id ≠ pid) ∧
    (∀ tx : Transaction,
      tx ∈ (deletePatient s pid).transactions ↔
        tx ∈ s.transactions ∧ tx.patient_id ≠ pid) := by
  refine ⟨fun x => ?_, fun x => ?_, fun x => ?_, fun x => ?_, fun x => ?_, fun x => ?_⟩ <;>
    simp [deletePatient, List.mem_filter, bne_iff_ne]

/-- Witness for C7: in the billed store, deleting patient 0 removes the booking. -/
theorem delete_patient_cascades_witness :
    demoBookingRow ∈ (deletePatient demoBilled 0).bookings ↔
      demoBookingRow ∈ demoBilled.bookings ∧ demoBookingRow.patient_id ≠ 0 :=
  (delete_patient_cascades demoBilled 0).2.2.2.1 demoBookingRow

/-! Substring semantics for the search filter. -/

theorem isSubList_iff (n : List Char) : ∀ h : List Char, isSubList n h = true ↔ n <:+: h
  | [] => by simp [isSubList, List.isEmpty_iff, List.infix_nil]
  | c :: t => by
    rw [isSubList]
    simp only [Bool.or_eq_true, List.isPrefixOf_iff_prefix, isSubList_iff n t]
    exact (List.infix_cons_iff).symm

/-- C8 counterexample: the patient below matches the spec's name/email/phone
filter on the search string 45678 through the phone column alone, yet
GET /api/patients?search=45678 returns nothing, because the handler's
or-filter covers only first_name, last_name and email. -/
def cePhonePatient : Patient :=
  { id := 0, first_name := "Ann", last_name := "Lee", phone := "0123456789",
    email := "ann@clinic.example" }

/-- Store holding only the phone-matching patient. -/
def cePhoneStore : Store := ⟨[cePhonePatient], [], [], [], [], [], 1⟩

/-- C8 fails as stated: a phone-only match is not returned by the search. -/
theorem search_ignores_phone_counterexample :
    cePhonePatient ∈ cePhoneStore.patients ∧
    patientMatchesSpec ("45678") cePhonePatient = true ∧
    searchPatients cePhoneStore ("45678") = [] := by
  refine ⟨by decide, by decide, ?_⟩
  decide

/-- C8 amended: for a non-empty search string the patients returned are exactly
those whose first name, last name, or email contains the search string
case-insensitively (the phone column is not searched); an empty or absent
search string returns every patient, which agrees with the empty substring
matching everything. -/
theorem search_matches_name_or_email (s : Store) (q : String) (p : Patient) :
    p ∈ searchPatients s q ↔
      p ∈ s.patients ∧
        (lowerChars q <:+: lowerChars p.first_name ∨
         lowerChars q <:+: lowerChars p.last_name ∨
         lowerChars q <:+: lowerChars p.email) := by
  unfold searchPatients
  by_cases hq : q = ""
  · subst hq
    have h0 : lowerChars ("") = [] := rfl
    simp [h0, List.nil_infix]
  · rw [if_neg (by simpa using hq)]
    simp [List.mem_filter, patientMatchesQuery, ilikeContains, isSubList_iff, or_assoc]

/-! Frame lemmas: which tables each operation leaves untouched. -/

theorem createPatient_contracts (s : Store) (fn ln ph em : String) :
    (createPatient s fn ln ph em).1.contracts = s.contracts := by
  unfold createPatient; split <;> rfl

theorem createPatient_bookings (s : Store) (fn ln ph em : String) :
    (createPatient s fn ln ph em).1.bookings = s.bookings := by
  unfold createPatient; split <;> rfl

theorem saveAssessment_contracts (s : Store) (pid : Nat) (d : String) :
    (saveAssessment s pid d).contracts = s.contracts := by
  unfold saveAssessment; split <;> rfl

theorem saveAssessment_bookings (s : Store) (pid : Nat) (d : String) :
    (saveAssessment s pid d).bookings = s.bookings := by
  unfold saveAssessment; split <;> rfl

theorem saveTreatmentPlan_contracts (s : Store) (pid : Nat) (sid sname : String)
    (cost disc total : Int) :
    (saveTreatmentPlan s pid sid sname cost disc total).contracts = s.contracts := by
  unfold saveTreatmentPlan; split <;> rfl

theorem saveTreatmentPlan_bookings (s : Store) (pid : Nat) (sid sname : String)
    (cost disc total : Int) :
    (saveTreatmentPlan s pid sid sname cost disc total).bookings = s.bookings := by
  unfold saveTreatmentPlan; split <;> rfl

theorem uploadContract_bookings (s : Store) (pid : Nat) (url : String) :
    (uploadContract s pid url).bookings = s.bookings := by
  unfold uploadContract; split <;> rfl

theorem createBooking_contracts (s : Store) (pid : Nat) (stype date slot : String) :
    (createBooking s pid stype date slot).1.contracts = s.contracts := by
  unfold createBooking; split <;> rfl

/-- Signed-ness only depends on the contracts table. -/
theorem contractSigned_congr (s s' : Store) (h : s'.contracts = s.contracts) (pid : Nat) :
    contractSigned s' pid = contractSigned s pid := by
  unfold contractSigned getContract; rw [h]

/-- Re-uploading a signature for any patient never unsigns anyone. -/
theorem contractSigned_uploadContract (s : Store) (pid q : Nat) (url : String)
    (h : contractSigned s q = true) :
    contractSigned (uploadContract s pid url) q = true := by
  rw [contractSigned_iff] at h ⊢
  obtain ⟨c, hc, hcq⟩ := h
  unfold uploadContract
  split
  · refine ⟨if c.patient_id == pid then { c with signature_url := url } else c,
      List.mem_map_of_mem _ hc, ?_⟩
    split <;> simpa using hcq
  · exact ⟨c, by simp [hc], hcq⟩

/-- Deleting one patient keeps every other patient signed. -/
theorem contractSigned_deletePatient (s : Store) (pid q : Nat) (hq : q ≠ pid)
    (h : contractSigned s q = true) :
    contractSigned (deletePatient s pid) q = true := by
  rw [contractSigned_iff] at h ⊢
  obtain ⟨c, hc, hcq⟩ := h
  refine ⟨c, ?_, hcq⟩
  simp [deletePatient, List.mem_filter, hc, bne_iff_ne, hcq, hq]

/-- Transfer of the booking-gate invariant along operations that change
neither the bookings nor the contracts table. -/
theorem gateInv_frame (s s' : Store) (hc : s'.contracts = s.contracts)
    (hb : s'.bookings = s.bookings)
    (ih : ∀ b ∈ s.bookings, contractSigned s b.patient_id = true) :
    ∀ b ∈ s'.bookings, contractSigned s' b.patient_id = true := by
  intro b hbm
  rw [contractSigned_congr s s' hc]
  exact ih b (hb ▸ hbm)

/-- C2: in every store reachable from the empty store by the API operations, no
booking row exists for a patient without a contract row. -/
theorem booking_requires_contract_invariant (s : Store) (hr : Reachable s) :
    ∀ b ∈ s.bookings, contractSigned s b.patient_id = true := by
  induction hr with
  | empty => intro b hb; cases hb
  | step s0 op hr0 ih =>
    cases op with
    | createPatient fn ln ph em =>
      exact gateInv_frame s0 _ (createPatient_contracts ..) (createPatient_bookings ..) ih
    | updatePatient pid fn ln ph em => exact gateInv_frame s0 _ rfl rfl ih
    | saveAssessment pid d =>
      exact gateInv_frame s0 _ (saveAssessment_contracts ..) (saveAssessment_bookings ..) ih
    | saveTreatmentPlan pid sid sname cost disc total =>
      exact gateInv_frame s0 _ (saveTreatmentPlan_contracts ..) (saveTreatmentPlan_bookings ..) ih
    | recordTransaction pid a pf => exact gateInv_frame s0 _ rfl rfl ih
    | uploadContract pid url =>
      intro b hb
      rw [show applyOp s0 (Op.uploadContract pid url) = uploadContract s0 pid url from rfl]
        at hb ⊢
      rw [uploadContract_bookings] at hb
      exact contractSigned_uploadContract s0 pid b.patient_id url (ih b hb)
    | deletePatient pid =>
      intro b hb
      have hb' : b ∈ s0.bookings ∧ ¬ b.patient_id = pid := by
        simpa [applyOp, deletePatient, List.mem_filter] using hb
      exact contractSigned_deletePatient s0 pid b.patient_id hb'.2 (ih b hb'.1)
    | createBooking pid stype date slot =>
      intro b hb
      rw [show applyOp s0 (Op.createBooking pid stype date slot)
        = (createBooking s0 pid stype date slot).1 from rfl] at hb ⊢
      rw [contractSigned_congr s0 _ (createBooking_contracts ..)]
      revert hb
      unfold createBooking
      cases hg : getContract s0 pid with
      | none => exact fun hb => ih b hb
      | some c =>
        intro hb
        have hb' : b ∈ s0.bookings ∨ b = newBookingRow s0 pid stype date slot := by
          simpa [newBookingRow] using hb
        rcases hb' with hmem | hnew
        · exact ih b hmem
        · have hbp : b.patient_id = pid := by rw [hnew]; rfl
          rw [hbp]
          unfold contractSigned
          rw [hg]
          rfl

/-- Witness for C2: the booking of the reachable demo store has a signed patient. -/
theorem booking_requires_contract_invariant_witness :
    contractSigned demoBooked demoBookingRow.patient_id = true :=
  booking_requires_contract_invariant demoBooked demoBooked_reachable demoBookingRow (by decide)

/-- In every reachable store there is at most one contract row per patient,
matching the UNIQUE(patient_id) constraint of schema.sql. -/
theorem contracts_unique_invariant (s : Store) (hr : Reachable s) (pid : Nat) :
    s.contracts.countP (fun c => c.patient_id == pid) ≤ 1 := by
  induction hr with
  | empty => simp [emptyStore]
  | step s0 op hr0 ih =>
    cases op with
    | createPatient fn ln ph em =>
      rw [show (applyOp s0 (Op.createPatient fn ln ph em)).contracts = s0.contracts
        from createPatient_contracts s0 fn ln ph em]
      exact ih
    | updatePatient q fn ln ph em => exact ih
    | saveAssessment q d =>
      rw [show (applyOp s0 (Op.saveAssessment q d)).contracts = s0.contracts
        from saveAssessment_contracts s0 q d]
      exact ih
    | saveTreatmentPlan q sid sname cost disc total =>
      rw [show (applyOp s0 (Op.saveTreatmentPlan q sid sname cost disc total)).contracts
        = s0.contracts from saveTreatmentPlan_contracts s0 q sid sname cost disc total]
      exact ih
    | recordTransaction q a pf => exact ih
    | createBooking q stype date slot =>
      rw [show (applyOp s0 (Op.createBooking q stype date slot)).contracts = s0.contracts
        from createBooking_contracts s0 q stype date slot]
      exact ih
    | deletePatient q =>
      exact le_trans (List.Sublist.countP_le _ (List.filter_sublist s0.contracts)) ih
    | uploadContract q url =>
      rw [show (applyOp s0 (Op.uploadContract q url)).contracts
        = (uploadContract s0 q url).contracts from rfl]
      unfold uploadContract
      split
      next hdup =>
        dsimp only
        rw [List.countP_map]
        have heq : s0.contracts.countP
            ((fun c => c.patient_id == pid) ∘ fun c =>
              if c.patient_id == q then { c with signature_url := url } else c)
          = s0.contracts.countP (fun c => c.patient_id == pid) := by
          refine List.countP_congr (fun c hc => ?_)
          by_cases h : (c.patient_id == q) = true <;> simp [Function.comp, h]
        rw [heq]
        exact ih
      next hdup =>
        dsimp only
        rw [List.countP_append]
        by_cases hpq : q = pid
        · subst hpq
          have h0 : s0.contracts.countP (fun c => c.patient_id == q) = 0 := by
            rw [List.countP_eq_zero]
            intro c hc hcq
            exact hdup (List.any_eq_true.mpr ⟨c, hc, hcq⟩)
          rw [h0, Nat.zero_add]
          exact le_trans (List.countP_le_length _) (by simp)
        · have h1 : List.countP (fun c => c.patient_id == pid)
              [({ id := s0.nextId, patient_id := q, signature_url := url } : Contract)] = 0 := by
            simp [hpq]
          rw [h1]
          simpa using ih

/-- C9: contract signing is irreversible: in any reachable store where a
patient has a contract row, every API operation other than deleting that
patient leaves the patient signed, and re-uploading a signature through the
POST /api/contract upsert keeps exactly one contract row for the patient. -/
theorem contract_signing_irreversible (s : Store) (pid : Nat) (op : Op) (url : String)
    (hr : Reachable s) (hs : contractSigned s pid = true)
    (hop : op ≠ Op.deletePatient pid) :
    contractSigned (applyOp s op) pid = true ∧
    (uploadContract s pid url).contracts.countP (fun c => c.patient_id == pid) = 1 := by
  constructor
  · cases op with
    | createPatient fn ln ph em =>
      exact (contractSigned_congr s _ (createPatient_contracts s fn ln ph em) pid).trans hs
    | updatePatient q fn ln ph em =>
      exact (contractSigned_congr s _ rfl pid).trans hs
    | deletePatient q =>
      have hq : pid ≠ q := fun h => hop (by rw [h])
      exact contractSigned_deletePatient s q pid hq hs
    | saveAssessment q d =>
      exact (contractSigned_congr s _ (saveAssessment_contracts s q d) pid).trans hs
    | uploadContract q u =>
      exact contractSigned_uploadContract s q pid u hs
    | createBooking q stype date slot =>
      exact (contractSigned_congr s _ (createBooking_contracts s q stype date slot) pid).trans hs
    | saveTreatmentPlan q sid sname cost disc total =>
      exact (contractSigned_congr s _
        (saveTreatmentPlan_contracts s q sid sname cost disc total) pid).trans hs
    | recordTransaction q a pf =>
      exact (contractSigned_congr s _ rfl pid).trans hs
  · have hle := contracts_unique_invariant s hr pid
    have hex : ∃ c ∈ s.contracts, c.patient_id = pid := (contractSigned_iff s pid).mp hs
    have hge : 0 < s.contracts.countP (fun c => c.patient_id == pid) := by
      rw [List.countP_pos_iff]
      obtain ⟨c, hc, hcq⟩ := hex
      exact ⟨c, hc, by simp [hcq]⟩
    have hany : s.contracts.any (fun c => c.patient_id == pid) = true := by
      rw [List.any_eq_true]
      obtain ⟨c, hc, hcq⟩ := hex
      exact ⟨c, hc, by simp [hcq]⟩
    unfold uploadContract
    rw [if_pos hany]
    dsimp only
    rw [List.countP_map]
    have heq : s.contracts.countP
        ((fun c => c.patient_id == pid) ∘ fun c =>
          if c.patient_id == pid then { c with signature_url := url } else c)
      = s.contracts.countP (fun c => c.patient_id == pid) := by
      refine List.countP_congr (fun c hc => ?_)
      by_cases h : (c.patient_id == pid) = true <;> simp [Function.comp, h]
    rw [heq]
    omega

/-- Witness for C9: in the signed demo store, recording a payment keeps the
patient signed and re-uploading the signature keeps one contract row. -/
theorem contract_signing_irreversible_witness :
    contractSigned (applyOp demoSigned (Op.recordTransaction 0 500 "r.png")) 0 = true ∧
    (uploadContract demoSigned 0 "https://cdn.example/sig0b.png").contracts.countP
      (fun c => c.patient_id == 0) = 1 :=
  contract_signing_irreversible demoSigned 0 (Op.recordTransaction 0 500 "r.png")
    "https://cdn.example/sig0b.png" demoSigned_reachable (by decide) (by decide)

end CosmeticStarCRM
